import Mathlib

/-!
# Verification of the StoryGraph utility scripts

A shallow embedding of the five batch scripts under `src/experiments/`
(`map_icons_to_lucide.py`, `copy_lucide_icons.py`, `generate_qrc.py`,
`generate_icon_mapping_cpp.py`, `generate_assets.py`) together with proofs
of the behavioural properties stated in the specification.

Modelling conventions:
* A filesystem is a predicate `String → Bool` on full path names
  (`os.path.exists`); directory listings (`os.listdir`) are lists of entry
  names, paired with an `isfile` flag where the script consults
  `os.path.isfile`.
* Python strings are `String`; the string operations the scripts use
  (`.endswith`, `.replace`, `.split('-')[0]`, `in`, `sorted`) are embedded
  as char-list computations so that every definition evaluates by kernel
  reduction.  `sorted` is a stable comparison sort and is embedded as
  `List.insertionSort`, which is extensionally the same function.
* `struct.pack` output and WAV payloads are lists of byte values (`Nat`).
-/

/-- `os.path.join dir name` for the forms used by the scripts (no trailing
slash on `dir`). -/
def path_join (dir name : String) : String :=
  dir ++ "/" ++ name

/-- Python's substring test `pat in s`. -/
def strContainsB (s pat : String) : Bool :=
  decide (pat.toList <:+: s.toList)

/-- Python's `s.startswith pat`. -/
def startsWithB (s pat : String) : Bool :=
  pat.toList.isPrefixOf s.toList

/-- Python's `f.endswith('.svg')`. -/
def ends_with_svg (f : String) : Bool :=
  ".svg".toList.isSuffixOf f.toList

/-- Python's `f.replace('.svg', '')` on the character list: every
occurrence of `.svg` is removed, scanning left to right. -/
def strip_svg_list : List Char → List Char
  | '.' :: 's' :: 'v' :: 'g' :: rest => strip_svg_list rest
  | c :: rest => c :: strip_svg_list rest
  | [] => []

/-- Python's `f.replace('.svg', '')`. -/
def svg_stem (f : String) : String :=
  (strip_svg_list f.toList).asString

/-- Python's `s.split('-')[0]`: the token before the first hyphen (the
whole string when it has no hyphen). -/
def token_before_hyphen (s : String) : String :=
  (s.toList.takeWhile (fun c => c != '-')).asString

/-- Python's `sorted` on strings: a stable comparison sort by the
lexicographic order, embedded as insertion sort. -/
def sortStrings (l : List String) : List String :=
  l.insertionSort (· ≤ ·)

/-! ## Icon Mapper (`map_icons_to_lucide.py`) -/

/-- `check_icons_exist` (src/experiments/map_icons_to_lucide.py:197-209):
walks the mapping table in iteration order and tests, for each entry
`(current_name, lucide_name)`, whether `<lucide_name>.svg` exists under
`lucide_icons_path`; the entry goes to the `found` list (first component)
or the `missing` list (second component). -/
def check_icons_exist (fs : String → Bool) (lucide_icons_path : String) :
    List (String × String) → List (String × String) × List (String × String)
  | [] => ([], [])
  | (current_name, lucide_name) :: rest =>
    let step := check_icons_exist fs lucide_icons_path rest
    if fs (path_join lucide_icons_path (lucide_name ++ ".svg")) then
      ((current_name, lucide_name) :: step.1, step.2)
    else
      (step.1, (current_name, lucide_name) :: step.2)

/-- The deduplicated-and-stripped listing
`[f.replace('.svg', '') for f in os.listdir(path) if f.endswith('.svg')]`
of `suggest_alternatives` (src/experiments/map_icons_to_lucide.py:214). -/
def all_lucide_icons_of (listing : List String) : List String :=
  (listing.filter ends_with_svg).map svg_stem

/-- The candidate list of `suggest_alternatives` for one missing entry:
every listed icon whose stripped name contains the token before the first
hyphen of the target Lucide name
(src/experiments/map_icons_to_lucide.py:218). -/
def candidatesFor (lucide_name : String) (listing : List String) : List String :=
  (all_lucide_icons_of listing).filter
    (fun icon => strContainsB icon (token_before_hyphen lucide_name))

/-- `suggest_alternatives` (src/experiments/map_icons_to_lucide.py:211-222):
for each missing `(current_name, lucide_name)` with a non-empty candidate
list, associates `current_name` with the first five candidates; an entry
with no candidate is not added to the dictionary. -/
def suggest_alternatives (missing_icons : List (String × String))
    (listing : List String) : List (String × List String) :=
  missing_icons.filterMap (fun mi =>
    if (candidatesFor mi.2 listing).isEmpty then none
    else some (mi.1, (candidatesFor mi.2 listing).take 5))

/-! ## Icon Copier (`copy_lucide_icons.py`) -/

/-- The external source directory of `copy_icons`
(src/experiments/copy_lucide_icons.py:15). -/
def lucide_icons_dir : String := "/tmp/lucide-icons/icons"

/-- The destination directory of `copy_icons`
(src/experiments/copy_lucide_icons.py:16). -/
def target_dir : String := "editor/resources/icons/lucide"

/-- The loop of `copy_icons` (src/experiments/copy_lucide_icons.py:27-35):
for each icon name in turn, if `<name>.svg` exists under
`lucide_icons_dir` it is copied to `target_dir` (recorded by updating the
filesystem) and recorded as copied, else recorded as failed.  Returns
`(copied, failed, final filesystem)`. -/
def copy_icons_loop (fs : String → Bool) :
    List String → List String × List String × (String → Bool)
  | [] => ([], [], fs)
  | lucide_icon :: rest =>
    let source_file := path_join lucide_icons_dir (lucide_icon ++ ".svg")
    let target_file := path_join target_dir (lucide_icon ++ ".svg")
    if fs source_file then
      let step := copy_icons_loop (fun p => if p = target_file then true else fs p) rest
      (lucide_icon :: step.1, step.2.1, step.2.2)
    else
      let step := copy_icons_loop fs rest
      (step.1, lucide_icon :: step.2.1, step.2.2)

/-- `copy_icons` (src/experiments/copy_lucide_icons.py:10-44): iterates
`sorted(set(icon_mapping.values()))` and copies each existing source file.
Returns `(copied, failed, final filesystem)`. -/
def copy_icons (fs : String → Bool) (icon_mapping : List (String × String)) :
    List String × List String × (String → Bool) :=
  copy_icons_loop fs (sortStrings (icon_mapping.map Prod.snd).dedup)

/-! ## Resource Manifest Generator (`generate_qrc.py`) -/

/-- The `lucide_icons` listing of `generate_qrc`
(src/experiments/generate_qrc.py:13): immediate children whose name ends
in `.svg`, sorted.  The script applies no regular-file test to this
directory, so the `isfile` flag of an entry is ignored. -/
def qrc_lucide_icons (lucide_listing : List (String × Bool)) : List String :=
  sortStrings ((lucide_listing.filter (fun f => ends_with_svg f.1)).map Prod.fst)

/-- The `old_icons` listing of `generate_qrc`
(src/experiments/generate_qrc.py:16-17): immediate children whose name
ends in `.svg` and that are regular files, sorted. -/
def qrc_old_icons (old_listing : List (String × Bool)) : List String :=
  sortStrings ((old_listing.filter (fun f => ends_with_svg f.1 && f.2)).map Prod.fst)

/-- The `<file>` entry lines of the manifest
(src/experiments/generate_qrc.py:23-29): one line per old icon, then one
line per Lucide icon. -/
def qrc_file_entries (old_listing lucide_listing : List (String × Bool)) : List String :=
  (qrc_old_icons old_listing).map (fun icon => "        <file>icons/" ++ icon ++ "</file>") ++
  (qrc_lucide_icons lucide_listing).map (fun icon => "        <file>icons/lucide/" ++ icon ++ "</file>")

/-- `generate_qrc` (src/experiments/generate_qrc.py:8-32): the full
document, lines joined with newlines. -/
def generate_qrc (old_listing lucide_listing : List (String × Bool)) : String :=
  "\n".intercalate (["<RCC>", "    <qresource prefix=\"/\">"] ++
    qrc_file_entries old_listing lucide_listing ++ ["    </qresource>", "</RCC>", ""])

/-! ## Source-Table Generator (`generate_icon_mapping_cpp.py`) -/

/-- The category rule table of `generate_cpp_mapping`
(src/experiments/generate_icon_mapping_cpp.py:19-42), in declaration
order. -/
def categories : List (String × List String) :=
  [("File Operations", ["file-"]),
   ("Edit Operations", ["edit-", "copy", "delete"]),
   ("Playback Controls", ["play", "pause", "stop", "step-"]),
   ("Panel Icons", ["panel-"]),
   ("Zoom and View Controls", ["zoom-"]),
   ("Utility Icons", ["settings", "help", "search", "filter", "refresh", "add",
                      "remove", "warning", "error", "info"]),
   ("Arrow and Navigation", ["arrow-", "chevron-"]),
   ("Node Type Icons", ["node-"]),
   ("Scene Object Icons", ["object-"]),
   ("Transform Icons", ["transform-"]),
   ("Asset Type Icons", ["asset-"]),
   ("Tool Icons", ["tool-"]),
   ("Status Icons", ["status-", "breakpoint", "execute"]),
   ("Layout Icons", ["layout-"]),
   ("Visibility and Lock Icons", ["visible", "hidden", "locked", "unlocked"]),
   ("Audio Icons", ["audio-", "microphone"]),
   ("Localization Icons", ["language", "translate", "locale-"]),
   ("Timeline Icons", ["keyframe", "snap", "loop", "easing-"]),
   ("Inspector Icons", ["property-"]),
   ("System Icons", ["external-", "folder-open", "import", "export", "pin", "unpin"]),
   ("Welcome Icons", ["welcome-"]),
   ("Template Icons", ["template-"])]

/-- One rule test of `get_category`
(src/experiments/generate_icon_mapping_cpp.py:47):
`icon_name.startswith(prefix) or icon_name == prefix`. -/
def rule_match (icon_name p : String) : Bool :=
  startsWithB icon_name p || icon_name == p

/-- `get_category` (src/experiments/generate_icon_mapping_cpp.py:44-49):
the first category, in table-declaration order, one of whose rule strings
matches; `"Other"` when none does. -/
def get_category (icon_name : String) : String :=
  ((categories.find? (fun cat => cat.2.any (rule_match icon_name))).map Prod.fst).getD "Other"

/-- The specification's reading of the category rule: filter the table to
the matching categories and take the head ("first match wins"). -/
def get_category_first (icon_name : String) : String :=
  (((categories.filter (fun cat => cat.2.any (rule_match icon_name))).head?).map
    Prod.fst).getD "Other"

/-- The `grouped` structure of `generate_cpp_mapping`
(src/experiments/generate_icon_mapping_cpp.py:52-58, 61): mapping keys are
sorted, bucketed by `get_category`, and the categories present are
iterated in alphabetical order for emission. -/
def cpp_groups (icon_mapping : List (String × String)) : List (String × List String) :=
  let sorted_names := sortStrings (icon_mapping.map Prod.fst)
  (sortStrings (sorted_names.map get_category).dedup).map
    (fun cat => (cat, sorted_names.filter (fun n => get_category n == cat)))

/-- One emitted line of `generate_cpp_mapping`: a `//` comment, an
assignment `m_iconFilePaths["key"] = ":/icons/lucide/value.svg";`, or a
blank separator. -/
inductive CppLine where
  | comment (text : String)
  | assign (key value : String)
  | blank
deriving DecidableEq

/-- `generate_cpp_mapping` (src/experiments/generate_icon_mapping_cpp.py:8-67):
the two header comments and a blank line, then for each category (in
alphabetical order) a category comment, the assignment lines of its keys,
and a blank line. -/
def generate_cpp_mapping (icon_mapping : List (String × String)) : List CppLine :=
  CppLine.comment "Icon name mapping to Lucide icon files" ::
  CppLine.comment "Format: m_iconFilePaths[\"icon-name\"] = \":/icons/lucide/icon-file.svg\";" ::
  CppLine.blank ::
  (cpp_groups icon_mapping).flatMap (fun g =>
    CppLine.comment g.1 ::
    (g.2.map (fun n => CppLine.assign n ((icon_mapping.lookup n).getD "")) ++ [CppLine.blank]))

/-- The key of an assignment line, `none` for the other line forms. -/
def assign_key : CppLine → Option String
  | CppLine.assign k _ => some k
  | _ => none

/-! ## Placeholder audio (`generate_assets.py`, `create_silent_wav`) -/

/-- Two little-endian bytes of a 16-bit field of `struct.pack`. -/
def u16le (n : Nat) : List Nat :=
  [n % 256, n / 256 % 256]

/-- Four little-endian bytes of a 32-bit field of `struct.pack`. -/
def u32le (n : Nat) : List Nat :=
  [n % 256, n / 256 % 256, n / 65536 % 256, n / 16777216 % 256]

/-- A four-byte ASCII tag (`4s` field of `struct.pack`). -/
def fourcc (s : String) : List Nat :=
  s.toList.map Char.toNat

/-- `num_samples = int(sample_rate * duration_ms / 1000)`
(src/experiments/generate_assets.py:325) with `sample_rate = 44100`.
Python's `int()` truncates the (exact-to-within-float) quotient toward
zero, which for natural inputs is the flooring division below. -/
def wav_num_samples (duration_ms : Nat) : Nat :=
  44100 * duration_ms / 1000

/-- The 44-byte WAV header built by `struct.pack('<4sI4s4sIHHIIHH4sI', ...)`
(src/experiments/generate_assets.py:328-343). -/
def wav_header (duration_ms : Nat) : List Nat :=
  fourcc "RIFF" ++ u32le (36 + wav_num_samples duration_ms * 2) ++
  fourcc "WAVE" ++ fourcc "fmt " ++ u32le 16 ++ u16le 1 ++ u16le 1 ++
  u32le 44100 ++ u32le (44100 * 2) ++ u16le 2 ++ u16le 16 ++
  fourcc "data" ++ u32le (wav_num_samples duration_ms * 2)

/-- The bytes `create_silent_wav` writes
(src/experiments/generate_assets.py:319-349): the header followed by
`b'\x00\x00' * num_samples`. -/
def create_silent_wav (duration_ms : Nat) : List Nat :=
  wav_header duration_ms ++ List.replicate (wav_num_samples duration_ms * 2) 0

/-! ## Character sprites (`generate_assets.py`, `create_character_svg`) -/

/-- The `eye_shapes` lookup (src/experiments/generate_assets.py:30-35)
with the `.get(expression, eye_shapes["neutral"])` default applied. -/
def eye_shapes (expression : String) : String × String :=
  if expression = "neutral" then
    ("ellipse cx=\"170\" cy=\"280\" rx=\"15\" ry=\"12\"",
     "ellipse cx=\"230\" cy=\"280\" rx=\"15\" ry=\"12\"")
  else if expression = "happy" then
    ("path d=\"M155 280 Q170 270 185 280\"", "path d=\"M215 280 Q230 270 245 280\"")
  else if expression = "sad" then
    ("path d=\"M155 275 Q170 285 185 275\"", "path d=\"M215 275 Q230 285 245 275\"")
  else if expression = "surprised" then
    ("ellipse cx=\"170\" cy=\"280\" rx=\"18\" ry=\"18\"",
     "ellipse cx=\"230\" cy=\"280\" rx=\"18\" ry=\"18\"")
  else
    ("ellipse cx=\"170\" cy=\"280\" rx=\"15\" ry=\"12\"",
     "ellipse cx=\"230\" cy=\"280\" rx=\"15\" ry=\"12\"")

/-- The `mouth_shapes` lookup (src/experiments/generate_assets.py:37-42)
with the `.get(expression, mouth_shapes["neutral"])` default applied. -/
def mouth_shapes (expression : String) : String :=
  if expression = "neutral" then "path d=\"M175 340 L225 340\""
  else if expression = "happy" then "path d=\"M170 335 Q200 360 230 335\""
  else if expression = "sad" then "path d=\"M170 350 Q200 335 230 350\""
  else if expression = "surprised" then "ellipse cx=\"200\" cy=\"345\" rx=\"15\" ry=\"20\""
  else "path d=\"M175 340 L225 340\""

/-- The glasses overlay of the character named `sam`
(src/experiments/generate_assets.py:51-57). -/
def glasses_svg (accent_color : String) : String :=
  "\n    <circle cx=\"170\" cy=\"280\" r=\"25\" fill=\"none\" stroke=\"" ++ accent_color ++
  "\" stroke-width=\"3\"/>\n    <circle cx=\"230\" cy=\"280\" r=\"25\" fill=\"none\" stroke=\"" ++ accent_color ++
  "\" stroke-width=\"3\"/>\n    <line x1=\"195\" y1=\"280\" x2=\"205\" y2=\"280\" stroke=\"" ++ accent_color ++
  "\" stroke-width=\"3\"/>\n    <line x1=\"145\" y1=\"280\" x2=\"130\" y2=\"270\" stroke=\"" ++ accent_color ++
  "\" stroke-width=\"3\"/>\n    <line x1=\"255\" y1=\"280\" x2=\"270\" y2=\"270\" stroke=\"" ++ accent_color ++
  "\" stroke-width=\"3\"/>\n            "

/-- The tie overlay of the character named `professor`
(src/experiments/generate_assets.py:59-62). -/
def tie_svg (accent_color : String) : String :=
  "\n    <polygon points=\"200,500 185,520 200,700 215,520\" fill=\"" ++ accent_color ++
  "\"/>\n            "

/-- The `accent` variable of `create_character_svg`
(src/experiments/generate_assets.py:47-62): empty when no accent color is
supplied; with one, the glasses for name `sam`, the tie for name
`professor`, empty otherwise. -/
def accent_svg (name : String) (accent_color : Option String) : String :=
  match accent_color with
  | none => ""
  | some ac =>
    if name = "sam" then glasses_svg ac
    else if name = "professor" then tie_svg ac
    else ""

/-- Character template, up to the first `{color}` interpolation. -/
def char_tpl_1 : String :=
  "<?xml version=\"1.0\" encoding=\"UTF-8\"?>\n<svg width=\"400\" height=\"1080\" viewBox=\"0 0 400 1080\" xmlns=\"http://www.w3.org/2000/svg\">\n  <defs>\n    <linearGradient id=\"bodyGrad\" x1=\"0%\" y1=\"0%\" x2=\"0%\" y2=\"100%\">\n      <stop offset=\"0%\" style=\"stop-color:"

/-- Character template, between the two gradient-stop `{color}`s. -/
def char_tpl_2 : String :=
  ";stop-opacity:1\" />\n      <stop offset=\"100%\" style=\"stop-color:"

/-- Character template, from the second gradient stop to the neck
`fill="{color}"`. -/
def char_tpl_3 : String :=
  ";stop-opacity:0.8\" />\n    </linearGradient>\n  </defs>\n\n  <!-- Body silhouette -->\n  <ellipse cx=\"200\" cy=\"300\" rx=\"100\" ry=\"120\" fill=\"url(#bodyGrad)\"/>\n\n  <!-- Shoulders and torso -->\n  <path d=\"M100 380 Q100 450 120 550 L120 900 Q120 1000 200 1080 Q280 1000 280 900 L280 550 Q300 450 300 380 Q250 420 200 420 Q150 420 100 380\"\n        fill=\"url(#bodyGrad)\"/>\n\n  <!-- Neck -->\n  <rect x=\"175\" y=\"380\" width=\"50\" height=\"60\" fill=\""

/-- Character template, from the neck to `<{left_eye}`. -/
def char_tpl_4 : String :=
  "\"/>\n\n  <!-- Face features (white/light for contrast) -->\n  <"

/-- Character template, between an eye shape and the next `<`-shape
(used after the left eye and again after the right eye). -/
def char_tpl_5 : String :=
  " fill=\"white\"/>\n  <"

/-- Character template, from the mouth shape to the `{accent}`
interpolation. -/
def char_tpl_6 : String :=
  " fill=\"none\" stroke=\"white\" stroke-width=\"4\" stroke-linecap=\"round\"/>\n\n  <!-- Accent features -->\n  "

/-- Character template, after the accent overlay. -/
def char_tpl_7 : String :=
  "\n</svg>\n"

/-- `create_character_svg` (src/experiments/generate_assets.py:26-93): the
f-string template with the expression shapes, the color and the accent
overlay interpolated. -/
def create_character_svg (name color expression : String)
    (accent_color : Option String) : String :=
  char_tpl_1 ++ color ++ char_tpl_2 ++ color ++ char_tpl_3 ++ color ++ char_tpl_4 ++
  (eye_shapes expression).1 ++ char_tpl_5 ++ (eye_shapes expression).2 ++ char_tpl_5 ++
  mouth_shapes expression ++ char_tpl_6 ++ accent_svg name accent_color ++ char_tpl_7

/-! ## Backgrounds (`generate_assets.py`, `create_background_svg`) -/

/-- The hallway decoration (src/experiments/generate_assets.py:103-115). -/
def hallway_elements : String :=
  "\n    <rect x=\"50\" y=\"400\" width=\"120\" height=\"500\" fill=\"#555\" stroke=\"#333\" stroke-width=\"2\"/>\n    <rect x=\"200\" y=\"400\" width=\"120\" height=\"500\" fill=\"#555\" stroke=\"#333\" stroke-width=\"2\"/>\n    <rect x=\"350\" y=\"400\" width=\"120\" height=\"500\" fill=\"#555\" stroke=\"#333\" stroke-width=\"2\"/>\n    <rect x=\"500\" y=\"400\" width=\"120\" height=\"500\" fill=\"#555\" stroke=\"#333\" stroke-width=\"2\"/>\n    <rect x=\"1260\" y=\"400\" width=\"120\" height=\"500\" fill=\"#555\" stroke=\"#333\" stroke-width=\"2\"/>\n    <rect x=\"1410\" y=\"400\" width=\"120\" height=\"500\" fill=\"#555\" stroke=\"#333\" stroke-width=\"2\"/>\n    <rect x=\"1560\" y=\"400\" width=\"120\" height=\"500\" fill=\"#555\" stroke=\"#333\" stroke-width=\"2\"/>\n    <rect x=\"1710\" y=\"400\" width=\"120\" height=\"500\" fill=\"#555\" stroke=\"#333\" stroke-width=\"2\"/>\n    <!-- Floor -->\n    <rect x=\"0\" y=\"900\" width=\"1920\" height=\"180\" fill=\"#8B7355\"/>\n        "

/-- The cafeteria decoration (src/experiments/generate_assets.py:116-131). -/
def cafeteria_elements : String :=
  "\n    <rect x=\"100\" y=\"600\" width=\"300\" height=\"20\" fill=\"#8B4513\" rx=\"5\"/>\n    <rect x=\"150\" y=\"620\" width=\"10\" height=\"200\" fill=\"#654321\"/>\n    <rect x=\"350\" y=\"620\" width=\"10\" height=\"200\" fill=\"#654321\"/>\n    <rect x=\"500\" y=\"600\" width=\"300\" height=\"20\" fill=\"#8B4513\" rx=\"5\"/>\n    <rect x=\"550\" y=\"620\" width=\"10\" height=\"200\" fill=\"#654321\"/>\n    <rect x=\"750\" y=\"620\" width=\"10\" height=\"200\" fill=\"#654321\"/>\n    <rect x=\"1100\" y=\"600\" width=\"300\" height=\"20\" fill=\"#8B4513\" rx=\"5\"/>\n    <rect x=\"1500\" y=\"600\" width=\"300\" height=\"20\" fill=\"#8B4513\" rx=\"5\"/>\n    <!-- Counter -->\n    <rect x=\"0\" y=\"300\" width=\"1920\" height=\"100\" fill=\"#DEB887\"/>\n    <!-- Floor -->\n    <rect x=\"0\" y=\"820\" width=\"1920\" height=\"260\" fill=\"#D2B48C\"/>\n        "

/-- The library decoration (src/experiments/generate_assets.py:132-157). -/
def library_elements : String :=
  "\n    <rect x=\"50\" y=\"200\" width=\"200\" height=\"600\" fill=\"#654321\"/>\n    <rect x=\"60\" y=\"210\" width=\"180\" height=\"80\" fill=\"#8B0000\"/>\n    <rect x=\"60\" y=\"300\" width=\"180\" height=\"80\" fill=\"#006400\"/>\n    <rect x=\"60\" y=\"390\" width=\"180\" height=\"80\" fill=\"#00008B\"/>\n    <rect x=\"60\" y=\"480\" width=\"180\" height=\"80\" fill=\"#8B4513\"/>\n    <rect x=\"60\" y=\"570\" width=\"180\" height=\"80\" fill=\"#4B0082\"/>\n    <rect x=\"60\" y=\"660\" width=\"180\" height=\"80\" fill=\"#B8860B\"/>\n\n    <rect x=\"300\" y=\"200\" width=\"200\" height=\"600\" fill=\"#654321\"/>\n    <rect x=\"310\" y=\"210\" width=\"180\" height=\"80\" fill=\"#2F4F4F\"/>\n    <rect x=\"310\" y=\"300\" width=\"180\" height=\"80\" fill=\"#8B0000\"/>\n    <rect x=\"310\" y=\"390\" width=\"180\" height=\"80\" fill=\"#556B2F\"/>\n    <rect x=\"310\" y=\"480\" width=\"180\" height=\"80\" fill=\"#483D8B\"/>\n    <rect x=\"310\" y=\"570\" width=\"180\" height=\"80\" fill=\"#8B4513\"/>\n    <rect x=\"310\" y=\"660\" width=\"180\" height=\"80\" fill=\"#2F4F4F\"/>\n\n    <rect x=\"1420\" y=\"200\" width=\"200\" height=\"600\" fill=\"#654321\"/>\n    <rect x=\"1670\" y=\"200\" width=\"200\" height=\"600\" fill=\"#654321\"/>\n    <!-- Floor -->\n    <rect x=\"0\" y=\"800\" width=\"1920\" height=\"280\" fill=\"#DEB887\"/>\n        "

/-- The rooftop/sunset decoration
(src/experiments/generate_assets.py:158-175). -/
def rooftop_elements : String :=
  "\n    <ellipse cx=\"300\" cy=\"200\" rx=\"150\" ry=\"50\" fill=\"#FFB347\" opacity=\"0.6\"/>\n    <ellipse cx=\"700\" cy=\"150\" rx=\"200\" ry=\"60\" fill=\"#FFB347\" opacity=\"0.5\"/>\n    <ellipse cx=\"1400\" cy=\"180\" rx=\"180\" ry=\"55\" fill=\"#FFB347\" opacity=\"0.6\"/>\n    <!-- Sun -->\n    <circle cx=\"1600\" cy=\"400\" r=\"120\" fill=\"#FFD700\"/>\n    <circle cx=\"1600\" cy=\"400\" r=\"100\" fill=\"#FFA500\"/>\n    <!-- Railing -->\n    <rect x=\"0\" y=\"850\" width=\"1920\" height=\"20\" fill=\"#444\"/>\n    <rect x=\"100\" y=\"750\" width=\"10\" height=\"120\" fill=\"#444\"/>\n    <rect x=\"300\" y=\"750\" width=\"10\" height=\"120\" fill=\"#444\"/>\n    <rect x=\"500\" y=\"750\" width=\"10\" height=\"120\" fill=\"#444\"/>\n    <rect x=\"700\" y=\"750\" width=\"10\" height=\"120\" fill=\"#444\"/>\n    <!-- Floor -->\n    <rect x=\"0\" y=\"870\" width=\"1920\" height=\"210\" fill=\"#555\"/>\n        "

/-- The classroom decoration (src/experiments/generate_assets.py:176-194). -/
def classroom_elements : String :=
  "\n    <!-- Desks -->\n    <rect x=\"200\" y=\"600\" width=\"150\" height=\"100\" fill=\"#8B4513\"/>\n    <rect x=\"400\" y=\"600\" width=\"150\" height=\"100\" fill=\"#8B4513\"/>\n    <rect x=\"600\" y=\"600\" width=\"150\" height=\"100\" fill=\"#8B4513\"/>\n    <rect x=\"200\" y=\"750\" width=\"150\" height=\"100\" fill=\"#8B4513\"/>\n    <rect x=\"400\" y=\"750\" width=\"150\" height=\"100\" fill=\"#8B4513\"/>\n    <rect x=\"600\" y=\"750\" width=\"150\" height=\"100\" fill=\"#8B4513\"/>\n    <rect x=\"1100\" y=\"600\" width=\"150\" height=\"100\" fill=\"#8B4513\"/>\n    <rect x=\"1300\" y=\"600\" width=\"150\" height=\"100\" fill=\"#8B4513\"/>\n    <rect x=\"1500\" y=\"600\" width=\"150\" height=\"100\" fill=\"#8B4513\"/>\n    <!-- Blackboard -->\n    <rect x=\"700\" y=\"150\" width=\"500\" height=\"300\" fill=\"#2F4F4F\"/>\n    <rect x=\"710\" y=\"160\" width=\"480\" height=\"280\" fill=\"#1a1a2e\"/>\n    <!-- Floor -->\n    <rect x=\"0\" y=\"850\" width=\"1920\" height=\"230\" fill=\"#D2B48C\"/>\n        "

/-- The `elements` variable of `create_background_svg`
(src/experiments/generate_assets.py:99-194): the if/elif chain of
substring tests on the background name, in source order. -/
def background_elements (name : String) : String :=
  if strContainsB name "hallway" then hallway_elements
  else if strContainsB name "cafeteria" then cafeteria_elements
  else if strContainsB name "library" then library_elements
  else if strContainsB name "rooftop" || strContainsB name "sunset" then rooftop_elements
  else if strContainsB name "classroom" || strContainsB name "empty" then classroom_elements
  else ""

/-- The scene keyword table, in the chain's test order, as the
specification describes it. -/
def scene_rules : List (List String × String) :=
  [(["hallway"], hallway_elements),
   (["cafeteria"], cafeteria_elements),
   (["library"], library_elements),
   (["rooftop", "sunset"], rooftop_elements),
   (["classroom", "empty"], classroom_elements)]

/-- The specification's reading of the decoration choice: the decoration
of the first rule, in the fixed order of `scene_rules`, one of whose
keywords occurs in the name; the bare empty decoration when none does. -/
def background_elements_first (name : String) : String :=
  (((scene_rules.filter (fun rule => rule.1.any (fun kw => strContainsB name kw))).head?).map
    Prod.snd).getD ""

/-- Background template, up to the `{primary}` interpolation. -/
def bg_tpl_1 : String :=
  "<?xml version=\"1.0\" encoding=\"UTF-8\"?>\n<svg width=\"1920\" height=\"1080\" viewBox=\"0 0 1920 1080\" xmlns=\"http://www.w3.org/2000/svg\">\n  <defs>\n    <linearGradient id=\"bgGrad\" x1=\"0%\" y1=\"0%\" x2=\"0%\" y2=\"100%\">\n      <stop offset=\"0%\" style=\"stop-color:"

/-- Background template, between `{primary}` and `{secondary}`. -/
def bg_tpl_2 : String :=
  ";stop-opacity:1\" />\n      <stop offset=\"100%\" style=\"stop-color:"

/-- Background template, from `{secondary}` to the `{elements}`
interpolation. -/
def bg_tpl_3 : String :=
  ";stop-opacity:1\" />\n    </linearGradient>\n  </defs>\n\n  <!-- Background gradient -->\n  <rect width=\"1920\" height=\"1080\" fill=\"url(#bgGrad)\"/>\n\n  <!-- Scene elements -->\n  "

/-- Background template, from `{elements}` to the `{description}`
interpolation. -/
def bg_tpl_4 : String :=
  "\n\n  <!-- Description text (for preview) -->\n  <text x=\"960\" y=\"50\" font-family=\"Arial\" font-size=\"24\" fill=\"white\" text-anchor=\"middle\" opacity=\"0.5\">"

/-- Background template, after `{description}`. -/
def bg_tpl_5 : String :=
  "</text>\n</svg>\n"

/-- `create_background_svg` (src/experiments/generate_assets.py:96-212):
the gradient template with the scene decoration and caption interpolated. -/
def create_background_svg (name primary secondary description : String) : String :=
  bg_tpl_1 ++ primary ++ bg_tpl_2 ++ secondary ++ bg_tpl_3 ++
  background_elements name ++ bg_tpl_4 ++ description ++ bg_tpl_5

/-! ## Proofs -/

/-- `check_icons_exist` is the filter of the table by file existence,
paired with the filter by non-existence. -/
theorem check_icons_exist_eq_filter (fs : String → Bool) (dir : String)
    (table : List (String × String)) :
    check_icons_exist fs dir table =
      (table.filter (fun e => fs (path_join dir (e.2 ++ ".svg"))),
       table.filter (fun e => !fs (path_join dir (e.2 ++ ".svg")))) := by
  induction table with
  | nil => rfl
  | cons e rest ih =>
    obtain ⟨current_name, lucide_name⟩ := e
    rw [check_icons_exist]
    by_cases h : fs (path_join dir (lucide_name ++ ".svg")) = true
    · simp [ih, h, List.filter_cons]
    · simp only [Bool.not_eq_true] at h
      simp [ih, h, List.filter_cons]

/-- C1: for every mapping table and every filesystem state,
`check_icons_exist` puts each table entry in exactly one of the two
returned lists — `found` when `<lucide_name>.svg` exists under the
directory, `missing` otherwise; together they are a permutation of the
table (every entry exactly once), and each list is a sublist of the
table, so the table's iteration order is preserved. -/
theorem check_icons_exist_partition (fs : String → Bool) (dir : String)
    (table : List (String × String)) :
    ((check_icons_exist fs dir table).1 ++ (check_icons_exist fs dir table).2).Perm table ∧
    (check_icons_exist fs dir table).1.Sublist table ∧
    (check_icons_exist fs dir table).2.Sublist table ∧
    (∀ e : String × String, e ∈ (check_icons_exist fs dir table).1 ↔
      e ∈ table ∧ fs (path_join dir (e.2 ++ ".svg")) = true) ∧
    (∀ e : String × String, e ∈ (check_icons_exist fs dir table).2 ↔
      e ∈ table ∧ fs (path_join dir (e.2 ++ ".svg")) = false) := by
  rw [check_icons_exist_eq_filter]
  refine ⟨List.filter_append_perm _ table, List.filter_sublist _, List.filter_sublist _,
    fun e => ?_, fun e => ?_⟩
  · simp [List.mem_filter]
  · simp [List.mem_filter]

/-- The packed WAV header is 44 bytes for every duration. -/
theorem wav_header_length (duration_ms : Nat) : (wav_header duration_ms).length = 44 := rfl

/-- C3 (amended): the bytes written by `create_silent_wav` number exactly
`44 + 2 * (44100 * duration_ms / 1000)` with a *truncating* (flooring)
division — Python's `int()` — not a rounding one; in particular
`duration_ms = 500` gives `44 + 44100` bytes. -/
theorem create_silent_wav_length :
    (∀ duration_ms : Nat,
      (create_silent_wav duration_ms).length = 44 + 2 * (44100 * duration_ms / 1000)) ∧
    (create_silent_wav 500).length = 44 + 44100 := by
  have h : ∀ duration_ms : Nat,
      (create_silent_wav duration_ms).length = 44 + 2 * (44100 * duration_ms / 1000) := by
    intro d
    simp only [create_silent_wav, List.length_append, wav_header_length,
      List.length_replicate, wav_num_samples]
    ring
  exact ⟨h, by rw [h 500]⟩

/-- C3 counterexample: at `duration_ms = 15` the file is
`44 + 2 * 661 = 1366` bytes, whereas the claimed formula with `round`
gives `44 + 2 * round(661.5) = 44 + 2 * 662 = 1368` bytes: the code
truncates where the claim rounds. -/
theorem create_silent_wav_not_round :
    ¬ ((create_silent_wav 15).length = 44 + 2 * (round ((44100 * 15 : ℚ) / 1000)).toNat) := by
  have h1 : (create_silent_wav 15).length = 1366 := by
    simp only [create_silent_wav, List.length_append, wav_header_length,
      List.length_replicate, wav_num_samples]
  have h2 : round ((44100 * 15 : ℚ) / 1000) = 662 := by
    rw [round_eq]
    norm_num
  rw [h1, h2]
  decide

/-- The source paths `copy_icons` reads and the target paths it writes
live under different directories, so no write can affect a later
existence test. -/
theorem src_ne_tgt (x y : String) :
    path_join lucide_icons_dir x ≠ path_join target_dir y := by
  intro h
  have h' := congrArg String.data h
  simp [path_join, lucide_icons_dir, target_dir, String.data_append] at h'

/-- The copy loop records as copied exactly the icons whose source file
exists, as failed exactly the others (both in iteration order), and its
filesystem writes never touch a source path. -/
theorem copy_icons_loop_spec (icons : List String) : ∀ fs : String → Bool,
    (copy_icons_loop fs icons).1 =
      icons.filter (fun i => fs (path_join lucide_icons_dir (i ++ ".svg"))) ∧
    (copy_icons_loop fs icons).2.1 =
      icons.filter (fun i => !fs (path_join lucide_icons_dir (i ++ ".svg"))) ∧
    ∀ x : String,
      (copy_icons_loop fs icons).2.2 (path_join lucide_icons_dir x) =
        fs (path_join lucide_icons_dir x) := by
  induction icons with
  | nil => intro fs; simp [copy_icons_loop]
  | cons i rest ih =>
    intro fs
    have hcong : ∀ j : String,
        (decide (path_join lucide_icons_dir j = path_join target_dir (i ++ ".svg")) ||
          fs (path_join lucide_icons_dir j)) =
        fs (path_join lucide_icons_dir j) :=
      fun j => by simp [src_ne_tgt j (i ++ ".svg")]
    cases h : fs (path_join lucide_icons_dir (i ++ ".svg")) with
    | true =>
      obtain ⟨ih1, ih2, ih3⟩ :=
        ih (fun p => decide (p = path_join target_dir (i ++ ".svg")) || fs p)
      refine ⟨?_, ?_, fun x => ?_⟩ <;>
        simp [copy_icons_loop, h, List.filter_cons, ih1, ih2, ih3, hcong]
    | false =>
      obtain ⟨ih1, ih2, ih3⟩ := ih fs
      refine ⟨?_, ?_, fun x => ?_⟩ <;>
        simp [copy_icons_loop, h, List.filter_cons, ih1, ih2, ih3]

/-- `sorted(...)` produces a list sorted by the lexicographic order. -/
theorem sortStrings_sorted (l : List String) : (sortStrings l).Sorted (· ≤ ·) :=
  List.sorted_insertionSort _ l

/-- `sorted(...)` permutes its input. -/
theorem sortStrings_perm (l : List String) : (sortStrings l).Perm l :=
  List.perm_insertionSort _ l

/-- C2: for every mapping and filesystem, `copy_icons` returns `copied`
holding exactly the distinct external identifiers whose `<id>.svg` exists
under the source directory and `failed` holding exactly the distinct
identifiers whose file does not, both sorted lexicographically and
without duplicates. -/
theorem copy_icons_spec (fs : String → Bool) (icon_mapping : List (String × String)) :
    (copy_icons fs icon_mapping).1.Sorted (· ≤ ·) ∧
    (copy_icons fs icon_mapping).2.1.Sorted (· ≤ ·) ∧
    (copy_icons fs icon_mapping).1.Nodup ∧
    (copy_icons fs icon_mapping).2.1.Nodup ∧
    (∀ s : String, s ∈ (copy_icons fs icon_mapping).1 ↔
      s ∈ icon_mapping.map Prod.snd ∧ fs (path_join lucide_icons_dir (s ++ ".svg")) = true) ∧
    (∀ s : String, s ∈ (copy_icons fs icon_mapping).2.1 ↔
      s ∈ icon_mapping.map Prod.snd ∧ fs (path_join lucide_icons_dir (s ++ ".svg")) = false) := by
  obtain ⟨h1, h2, -⟩ := copy_icons_loop_spec (sortStrings (icon_mapping.map Prod.snd).dedup) fs
  have hsorted := sortStrings_sorted (icon_mapping.map Prod.snd).dedup
  have hnodup : (sortStrings (icon_mapping.map Prod.snd).dedup).Nodup :=
    ((sortStrings_perm _).nodup_iff).mpr (List.nodup_dedup _)
  have hmem : ∀ s : String,
      s ∈ sortStrings (icon_mapping.map Prod.snd).dedup ↔ s ∈ icon_mapping.map Prod.snd :=
    fun s => ((sortStrings_perm _).mem_iff).trans List.mem_dedup
  unfold copy_icons
  rw [h1, h2]
  refine ⟨List.Pairwise.sublist (List.filter_sublist _) hsorted,
    List.Pairwise.sublist (List.filter_sublist _) hsorted,
    hnodup.filter _, hnodup.filter _, fun s => ?_, fun s => ?_⟩
  · rw [List.mem_filter, hmem s]
  · rw [List.mem_filter, hmem s, Bool.not_eq_true']

/-- C8: re-running `copy_icons` on the same mapping, with the filesystem
left by the first run, returns the identical copied/failed partition: the
first run's writes all land under the destination directory and never
under the source directory the existence tests read. -/
theorem copy_icons_idempotent (fs : String → Bool) (icon_mapping : List (String × String)) :
    (copy_icons (copy_icons fs icon_mapping).2.2 icon_mapping).1 =
      (copy_icons fs icon_mapping).1 ∧
    (copy_icons (copy_icons fs icon_mapping).2.2 icon_mapping).2.1 =
      (copy_icons fs icon_mapping).2.1 := by
  obtain ⟨h1, h2, h3⟩ := copy_icons_loop_spec (sortStrings (icon_mapping.map Prod.snd).dedup) fs
  obtain ⟨g1, g2, -⟩ := copy_icons_loop_spec (sortStrings (icon_mapping.map Prod.snd).dedup)
    (copy_icons fs icon_mapping).2.2
  unfold copy_icons
  unfold copy_icons at g1 g2
  rw [g1, g2, h1, h2]
  constructor
  · exact List.filter_congr (fun j _ => h3 (j ++ ".svg"))
  · exact List.filter_congr (fun j _ => by rw [h3 (j ++ ".svg")])

/-- C4 counterexample: a directory entry `a.svg` of the copied (lucide)
subdirectory that is *not* a regular file still yields a manifest entry,
so the entry count differs from the regular-file SVG counts the claim
states: `generate_qrc` applies no `isfile` test to the lucide listing. -/
theorem generate_qrc_counterexample :
    (qrc_file_entries [] [("a.svg", false)]).length ≠
      ((([] : List (String × Bool)).filter (fun f => ends_with_svg f.1 && f.2)).length +
       (([("a.svg", false)] : List (String × Bool)).filter
          (fun f => ends_with_svg f.1 && f.2)).length) := by
  decide

/-- C4 (amended): the manifest lists the legacy entries first and the
copied entries second, each group sorted lexicographically; the legacy
group has one entry per immediate-child *regular file* with an `.svg`
suffix, while the copied group has one entry per immediate child with an
`.svg` suffix *regardless of file type* (the script applies `isfile` only
to the legacy directory), and the total count is the sum of those two
counts. -/
theorem generate_qrc_entries_spec (old_listing lucide_listing : List (String × Bool)) :
    generate_qrc old_listing lucide_listing =
      "\n".intercalate (["<RCC>", "    <qresource prefix=\"/\">"] ++
        qrc_file_entries old_listing lucide_listing ++ ["    </qresource>", "</RCC>", ""]) ∧
    qrc_file_entries old_listing lucide_listing =
      (qrc_old_icons old_listing).map (fun icon => "        <file>icons/" ++ icon ++ "</file>") ++
      (qrc_lucide_icons lucide_listing).map
        (fun icon => "        <file>icons/lucide/" ++ icon ++ "</file>") ∧
    (qrc_file_entries old_listing lucide_listing).length =
      (old_listing.filter (fun f => ends_with_svg f.1 && f.2)).length +
      (lucide_listing.filter (fun f => ends_with_svg f.1)).length ∧
    (qrc_old_icons old_listing).Sorted (· ≤ ·) ∧
    (qrc_lucide_icons lucide_listing).Sorted (· ≤ ·) ∧
    (qrc_old_icons old_listing).Perm
      ((old_listing.filter (fun f => ends_with_svg f.1 && f.2)).map Prod.fst) ∧
    (qrc_lucide_icons lucide_listing).Perm
      ((lucide_listing.filter (fun f => ends_with_svg f.1)).map Prod.fst) := by
  refine ⟨rfl, rfl, ?_, sortStrings_sorted _, sortStrings_sorted _,
    sortStrings_perm _, sortStrings_perm _⟩
  simp [qrc_file_entries, qrc_old_icons, qrc_lucide_icons, List.length_append,
    List.length_map, (sortStrings_perm _).length_eq]

/-- A lookup for a key absent from the association list yields `none`. -/
theorem lookup_none_of_not_mem_keys {β : Type} (key : String) (l : List (String × β))
    (h : key ∉ l.map Prod.fst) : l.lookup key = none := by
  induction l with
  | nil => rfl
  | cons e rest ih =>
    obtain ⟨e1, e2⟩ := e
    simp only [List.map_cons, List.mem_cons, not_or] at h
    have hbe : (key == e1) = false := by simpa using h.1
    simp only [List.lookup, hbe]
    exact ih h.2

/-- Unfolding `suggest_alternatives` one missing entry at a time. -/
theorem suggest_alternatives_cons (m1 m2 : String) (rest : List (String × String))
    (listing : List String) :
    suggest_alternatives ((m1, m2) :: rest) listing =
      if (candidatesFor m2 listing).isEmpty then suggest_alternatives rest listing
      else (m1, (candidatesFor m2 listing).take 5) :: suggest_alternatives rest listing := by
  simp only [suggest_alternatives, List.filterMap_cons]
  by_cases h : (candidatesFor m2 listing).isEmpty = true
  · simp [h]
  · simp [h]

/-- The keys of `suggest_alternatives`' result are a sublist of the
missing entries' keys: the dictionary is built in iteration order,
skipping entries without candidates. -/
theorem suggest_keys_sublist (missing_icons : List (String × String)) (listing : List String) :
    ((suggest_alternatives missing_icons listing).map Prod.fst).Sublist
      (missing_icons.map Prod.fst) := by
  induction missing_icons with
  | nil => simp [suggest_alternatives]
  | cons mi rest ih =>
    obtain ⟨m1, m2⟩ := mi
    rw [suggest_alternatives_cons]
    by_cases h : (candidatesFor m2 listing).isEmpty = true
    · rw [if_pos h]
      exact ih.cons m1
    · rw [if_neg h, List.map_cons]
      exact ih.cons₂ m1

/-- C6 counterexample: for the missing entry `("a", "b-c")` and an empty
external directory there is no matching file, and `suggest_alternatives`
omits the entry altogether instead of associating it with the empty
suggestion list: the result has no entry for `"a"`. -/
theorem suggest_alternatives_counterexample :
    (suggest_alternatives [("a", "b-c")] []).length ≠
      ([("a", "b-c")] : List (String × String)).length := by
  decide

/-- C6 (amended): `suggest_alternatives` associates each missing entry
*that has at least one matching file* with the first (at most) five files
of the external directory whose `.svg`-stripped name contains the token
before the first hyphen of the entry's external identifier, taken in
directory-listing order; a missing entry with no matching file is omitted
from the result, and the result lists entries in the order of the missing
list. -/
theorem suggest_alternatives_spec (missing_icons : List (String × String))
    (listing : List String) (hnd : (missing_icons.map Prod.fst).Nodup) :
    ((suggest_alternatives missing_icons listing).map Prod.fst).Sublist
      (missing_icons.map Prod.fst) ∧
    (∀ e ∈ suggest_alternatives missing_icons listing,
      e.2.length ≤ 5 ∧ e.2.Sublist (all_lucide_icons_of listing) ∧ e.2 ≠ []) ∧
    (∀ cn ln : String, (cn, ln) ∈ missing_icons →
      (suggest_alternatives missing_icons listing).lookup cn =
        if (candidatesFor ln listing).isEmpty then none
        else some ((candidatesFor ln listing).take 5)) := by
  refine ⟨suggest_keys_sublist missing_icons listing, fun e he => ?_, fun cn ln hmem => ?_⟩
  · rw [suggest_alternatives, List.mem_filterMap] at he
    obtain ⟨mi, -, hf⟩ := he
    by_cases h : (candidatesFor mi.2 listing).isEmpty = true
    · rw [if_pos h] at hf
      exact absurd hf (by simp)
    · rw [if_neg h] at hf
      obtain rfl := (Option.some.injEq _ _).mp hf
      refine ⟨List.length_take_le 5 _, ?_, ?_⟩
      · exact (List.take_sublist _ _).trans (List.filter_sublist _)
      · have hne2 : candidatesFor mi.2 listing ≠ [] := by
          intro hnil
          rw [hnil] at h
          exact h rfl
        cases hcand : candidatesFor mi.2 listing with
        | nil => exact absurd hcand hne2
        | cons c cs => simp [hcand]
  · induction missing_icons with
    | nil => exact absurd hmem (by simp)
    | cons mi rest ih =>
      obtain ⟨m1, m2⟩ := mi
      simp only [List.map_cons, List.nodup_cons] at hnd
      rw [suggest_alternatives_cons]
      rcases List.mem_cons.mp hmem with heq | hrest
      · have hc1 : cn = m1 := congrArg Prod.fst heq
        have hc2 : ln = m2 := congrArg Prod.snd heq
        subst hc1
        subst hc2
        by_cases h : (candidatesFor ln listing).isEmpty = true
        · rw [if_pos h, if_pos h]
          exact lookup_none_of_not_mem_keys cn _
            (fun hmem' => hnd.1 ((suggest_keys_sublist rest listing).subset hmem'))
        · rw [if_neg h, if_neg h]
          simp [List.lookup]
      · have hkey : cn ∈ rest.map Prod.fst := List.mem_map_of_mem Prod.fst hrest
        have hne : cn ≠ m1 := fun hcn => hnd.1 (hcn ▸ hkey)
        have hbe : (cn == m1) = false := by simpa using hne
        have hrec := ih hnd.2 hrest
        by_cases h : (candidatesFor m2 listing).isEmpty = true
        · rw [if_pos h]
          exact hrec
        · rw [if_neg h]
          simp only [List.lookup, hbe]
          exact hrec

/-- Witness for C6 (amended) at the spec's end-to-end example entry
`("file-open", "folder-open")` with listing `["folder-open.svg", "x.svg"]`. -/
theorem suggest_alternatives_spec_witness :
    (([("file-open", "folder-open")].map Prod.fst : List String).Nodup ∧
    (((suggest_alternatives [("file-open", "folder-open")]
          ["folder-open.svg", "x.svg"]).map Prod.fst).Sublist
        ([("file-open", "folder-open")].map Prod.fst) ∧
      (∀ e ∈ suggest_alternatives [("file-open", "folder-open")] ["folder-open.svg", "x.svg"],
        e.2.length ≤ 5 ∧ e.2.Sublist (all_lucide_icons_of ["folder-open.svg", "x.svg"]) ∧
          e.2 ≠ []) ∧
      (∀ cn ln : String, (cn, ln) ∈ [("file-open", "folder-open")] →
        (suggest_alternatives [("file-open", "folder-open")]
            ["folder-open.svg", "x.svg"]).lookup cn =
          if (candidatesFor ln ["folder-open.svg", "x.svg"]).isEmpty then none
          else some ((candidatesFor ln ["folder-open.svg", "x.svg"]).take 5)))) :=
  ⟨by decide, suggest_alternatives_spec _ _ (by decide)⟩

/-- C7: `create_character_svg` with any expression outside
{neutral, happy, sad, surprised} emits exactly the "neutral" sprite (the
shape lookups fall back to the neutral shapes); the "happy" sprite embeds
the happy eye and mouth shapes, which are quadratic-curve (`Q`) path
commands, distinct from neutral's ellipse eyes and straight-line (`L`)
mouth, which contain no curve command. -/
theorem create_character_svg_expressions (name color : String) (accent_color : Option String)
    (e : String) (h1 : e ≠ "neutral") (h2 : e ≠ "happy") (h3 : e ≠ "sad")
    (h4 : e ≠ "surprised") :
    create_character_svg name color e accent_color =
      create_character_svg name color "neutral" accent_color ∧
    eye_shapes e = eye_shapes "neutral" ∧
    mouth_shapes e = mouth_shapes "neutral" ∧
    (∃ p q : String, create_character_svg name color "happy" accent_color =
      p ++ (eye_shapes "happy").1 ++ q) ∧
    (∃ p q : String, create_character_svg name color "happy" accent_color =
      p ++ (eye_shapes "happy").2 ++ q) ∧
    (∃ p q : String, create_character_svg name color "happy" accent_color =
      p ++ mouth_shapes "happy" ++ q) ∧
    strContainsB (eye_shapes "happy").1 "Q" = true ∧
    strContainsB (eye_shapes "happy").2 "Q" = true ∧
    strContainsB (mouth_shapes "happy") "Q" = true ∧
    eye_shapes "happy" ≠ eye_shapes "neutral" ∧
    mouth_shapes "happy" ≠ mouth_shapes "neutral" ∧
    strContainsB (eye_shapes "neutral").1 "Q" = false ∧
    strContainsB (eye_shapes "neutral").2 "Q" = false ∧
    strContainsB (mouth_shapes "neutral") "Q" = false ∧
    startsWithB (eye_shapes "neutral").1 "ellipse" = true ∧
    startsWithB (eye_shapes "neutral").2 "ellipse" = true ∧
    strContainsB (mouth_shapes "neutral") "L" = true := by
  have he : eye_shapes e = eye_shapes "neutral" := by
    simp [eye_shapes, h1, h2, h3, h4]
  have hm : mouth_shapes e = mouth_shapes "neutral" := by
    simp [mouth_shapes, h1, h2, h3, h4]
  refine ⟨by rw [create_character_svg, create_character_svg, he, hm], he, hm, ?_, ?_, ?_,
    by decide, by decide, by decide, by decide, by decide, by decide, by decide, by decide,
    by decide, by decide, by decide⟩
  · exact ⟨char_tpl_1 ++ color ++ char_tpl_2 ++ color ++ char_tpl_3 ++ color ++ char_tpl_4,
      char_tpl_5 ++ (eye_shapes "happy").2 ++ char_tpl_5 ++ mouth_shapes "happy" ++
        char_tpl_6 ++ accent_svg name accent_color ++ char_tpl_7,
      by simp [create_character_svg, String.append_assoc]⟩
  · exact ⟨char_tpl_1 ++ color ++ char_tpl_2 ++ color ++ char_tpl_3 ++ color ++ char_tpl_4 ++
        (eye_shapes "happy").1 ++ char_tpl_5,
      char_tpl_5 ++ mouth_shapes "happy" ++ char_tpl_6 ++ accent_svg name accent_color ++
        char_tpl_7,
      by simp [create_character_svg, String.append_assoc]⟩
  · exact ⟨char_tpl_1 ++ color ++ char_tpl_2 ++ color ++ char_tpl_3 ++ color ++ char_tpl_4 ++
        (eye_shapes "happy").1 ++ char_tpl_5 ++ (eye_shapes "happy").2 ++ char_tpl_5,
      char_tpl_6 ++ accent_svg name accent_color ++ char_tpl_7,
      by simp [create_character_svg, String.append_assoc]⟩

/-- Witness for C7 at the unrecognized expression `"angry"` for the
character `alex`. -/
theorem create_character_svg_expressions_witness :
    (("angry" : String) ≠ "neutral" ∧ ("angry" : String) ≠ "happy" ∧
      ("angry" : String) ≠ "sad" ∧ ("angry" : String) ≠ "surprised") ∧
    (create_character_svg "alex" "#4A90D9" "angry" none =
      create_character_svg "alex" "#4A90D9" "neutral" none ∧
    eye_shapes "angry" = eye_shapes "neutral" ∧
    mouth_shapes "angry" = mouth_shapes "neutral" ∧
    (∃ p q : String, create_character_svg "alex" "#4A90D9" "happy" none =
      p ++ (eye_shapes "happy").1 ++ q) ∧
    (∃ p q : String, create_character_svg "alex" "#4A90D9" "happy" none =
      p ++ (eye_shapes "happy").2 ++ q) ∧
    (∃ p q : String, create_character_svg "alex" "#4A90D9" "happy" none =
      p ++ mouth_shapes "happy" ++ q) ∧
    strContainsB (eye_shapes "happy").1 "Q" = true ∧
    strContainsB (eye_shapes "happy").2 "Q" = true ∧
    strContainsB (mouth_shapes "happy") "Q" = true ∧
    eye_shapes "happy" ≠ eye_shapes "neutral" ∧
    mouth_shapes "happy" ≠ mouth_shapes "neutral" ∧
    strContainsB (eye_shapes "neutral").1 "Q" = false ∧
    strContainsB (eye_shapes "neutral").2 "Q" = false ∧
    strContainsB (mouth_shapes "neutral") "Q" = false ∧
    startsWithB (eye_shapes "neutral").1 "ellipse" = true ∧
    startsWithB (eye_shapes "neutral").2 "ellipse" = true ∧
    strContainsB (mouth_shapes "neutral") "L" = true) :=
  ⟨by refine ⟨?_, ?_, ?_, ?_⟩ <;> decide,
   create_character_svg_expressions "alex" "#4A90D9" none "angry"
     (by decide) (by decide) (by decide) (by decide)⟩

set_option maxRecDepth 8000 in
/-- The glasses overlay is non-empty markup. -/
theorem glasses_svg_ne_empty (ac : String) : glasses_svg ac ≠ "" := by
  intro h
  have h' := congrArg String.data h
  simp [glasses_svg, String.data_append] at h'

set_option maxRecDepth 8000 in
/-- The tie overlay is non-empty markup. -/
theorem tie_svg_ne_empty (ac : String) : tie_svg ac ≠ "" := by
  intro h
  have h' := congrArg String.data h
  simp [tie_svg, String.data_append] at h'

/-- C9: with no accent color the accent overlay is empty — the sprite does
not depend on the character name at all, reserved names `sam` and
`professor` included; the glasses and tie overlays are emitted exactly
when an accent color is supplied *and* the name is the matching reserved
name, and a non-reserved name with an accent color still gets no overlay. -/
theorem create_character_svg_accent (name color e ac : String)
    (h1 : name ≠ "sam") (h2 : name ≠ "professor") :
    (∀ n2 : String, create_character_svg name color e none =
      create_character_svg n2 color e none) ∧
    accent_svg name none = "" ∧
    accent_svg "sam" none = "" ∧
    accent_svg "professor" none = "" ∧
    accent_svg name (some ac) = "" ∧
    create_character_svg name color e (some ac) = create_character_svg name color e none ∧
    accent_svg "sam" (some ac) = glasses_svg ac ∧
    accent_svg "professor" (some ac) = tie_svg ac ∧
    glasses_svg ac ≠ "" ∧
    tie_svg ac ≠ "" ∧
    (∃ p q : String, create_character_svg "sam" color e (some ac) =
      p ++ glasses_svg ac ++ q) ∧
    (∃ p q : String, create_character_svg "professor" color e (some ac) =
      p ++ tie_svg ac ++ q) := by
  have hacc : accent_svg name (some ac) = "" := by
    simp [accent_svg, h1, h2]
  refine ⟨fun n2 => by simp [create_character_svg, accent_svg], rfl, rfl, rfl, hacc,
    by rw [create_character_svg, create_character_svg, hacc]; rfl,
    by simp [accent_svg], by simp [accent_svg], glasses_svg_ne_empty ac, tie_svg_ne_empty ac,
    ?_, ?_⟩
  · exact ⟨char_tpl_1 ++ color ++ char_tpl_2 ++ color ++ char_tpl_3 ++ color ++ char_tpl_4 ++
        (eye_shapes e).1 ++ char_tpl_5 ++ (eye_shapes e).2 ++ char_tpl_5 ++ mouth_shapes e ++
        char_tpl_6,
      char_tpl_7,
      by simp [create_character_svg, accent_svg, String.append_assoc]⟩
  · exact ⟨char_tpl_1 ++ color ++ char_tpl_2 ++ color ++ char_tpl_3 ++ color ++ char_tpl_4 ++
        (eye_shapes e).1 ++ char_tpl_5 ++ (eye_shapes e).2 ++ char_tpl_5 ++ mouth_shapes e ++
        char_tpl_6,
      char_tpl_7,
      by simp [create_character_svg, accent_svg, String.append_assoc]⟩

/-- Witness for C9 at the non-reserved character `alex`, expression
`neutral`, accent color `#333333`. -/
theorem create_character_svg_accent_witness :
    (("alex" : String) ≠ "sam" ∧ ("alex" : String) ≠ "professor") ∧
    ((∀ n2 : String, create_character_svg "alex" "#4A90D9" "neutral" none =
      create_character_svg n2 "#4A90D9" "neutral" none) ∧
    accent_svg "alex" none = "" ∧
    accent_svg "sam" none = "" ∧
    accent_svg "professor" none = "" ∧
    accent_svg "alex" (some "#333333") = "" ∧
    create_character_svg "alex" "#4A90D9" "neutral" (some "#333333") =
      create_character_svg "alex" "#4A90D9" "neutral" none ∧
    accent_svg "sam" (some "#333333") = glasses_svg "#333333" ∧
    accent_svg "professor" (some "#333333") = tie_svg "#333333" ∧
    glasses_svg "#333333" ≠ "" ∧
    tie_svg "#333333" ≠ "" ∧
    (∃ p q : String, create_character_svg "sam" "#4A90D9" "neutral" (some "#333333") =
      p ++ glasses_svg "#333333" ++ q) ∧
    (∃ p q : String, create_character_svg "professor" "#4A90D9" "neutral" (some "#333333") =
      p ++ tie_svg "#333333" ++ q)) :=
  ⟨⟨by decide, by decide⟩,
   create_character_svg_accent "alex" "#4A90D9" "neutral" "#333333" (by decide) (by decide)⟩

/-- The if/elif decoration chain agrees with the first-match reading of
the keyword rule table. -/
theorem background_elements_eq_first (name : String) :
    background_elements name = background_elements_first name := by
  unfold background_elements background_elements_first scene_rules
  cases hh : strContainsB name "hallway" <;>
  cases hc : strContainsB name "cafeteria" <;>
  cases hl : strContainsB name "library" <;>
  cases hr : strContainsB name "rooftop" <;>
  cases hs : strContainsB name "sunset" <;>
  cases hcl : strContainsB name "classroom" <;>
  cases he : strContainsB name "empty" <;>
  simp [hh, hc, hl, hr, hs, hcl, he]

/-- C10: `create_background_svg` interpolates exactly one decoration
chosen by `background_elements`; the choice is the decoration of the
first matching keyword test in the fixed order hallway, cafeteria,
library, rooftop-or-sunset, classroom-or-empty (so a name containing
several keywords gets only the earliest match, and a name matching none
gets the bare gradient, whose decoration slot is the empty string); the
decoration emitted is always one of the five scene decorations or empty,
and those six possibilities are pairwise distinct. -/
theorem create_background_svg_scene (name primary secondary description : String) :
    create_background_svg name primary secondary description =
      bg_tpl_1 ++ primary ++ bg_tpl_2 ++ secondary ++ bg_tpl_3 ++
      background_elements name ++ bg_tpl_4 ++ description ++ bg_tpl_5 ∧
    background_elements name = background_elements_first name ∧
    background_elements name ∈
      [hallway_elements, cafeteria_elements, library_elements, rooftop_elements,
       classroom_elements, ""] ∧
    List.Pairwise (· ≠ ·)
      [hallway_elements, cafeteria_elements, library_elements, rooftop_elements,
       classroom_elements, ""] := by
  refine ⟨rfl, background_elements_eq_first name, ?_, by decide⟩
  unfold background_elements
  split_ifs <;> simp

/-- `find?` is the head of the filtered list: "first match wins". -/
theorem find?_eq_head_filter {α : Type} (p : α → Bool) (l : List α) :
    l.find? p = (l.filter p).head? := by
  induction l with
  | nil => rfl
  | cons a rest ih =>
    by_cases h : p a = true
    · rw [List.find?_cons_of_pos rest h, List.filter_cons_of_pos h, List.head?_cons]
    · rw [List.find?_cons_of_neg rest h, List.filter_cons_of_neg h, ih]

/-- The rule lookup of `get_category` equals the specification's reading:
the first category of the table, in declaration order, with a matching
rule; `"Other"` when no rule matches. -/
theorem get_category_eq_first (icon_name : String) :
    get_category icon_name = get_category_first icon_name := by
  rw [get_category, get_category_first, find?_eq_head_filter]

/-- `flatMap` respects pointwise-equal functions. -/
theorem flatMap_congr_mem {α γ : Type} (l : List α) (f g : α → List γ)
    (h : ∀ a ∈ l, f a = g a) : l.flatMap f = l.flatMap g := by
  induction l with
  | nil => rfl
  | cons a rest ih =>
    rw [List.flatMap_cons, List.flatMap_cons, h a (by simp),
      ih (fun a ha => h a (by simp [ha]))]

/-- Bucketing a list by the distinct values of a classifier and
concatenating the buckets permutes the list. -/
theorem flatMap_filter_perm {α β : Type} [DecidableEq β] (f : α → β) :
    ∀ (cats : List β) (l : List α), cats.Nodup → (∀ x ∈ l, f x ∈ cats) →
      (cats.flatMap (fun c => l.filter (fun x => f x == c))).Perm l := by
  intro cats
  induction cats with
  | nil =>
    intro l _ hcov
    cases l with
    | nil => simp
    | cons x xs => exact absurd (hcov x (by simp)) (by simp)
  | cons c cs ih =>
    intro l hnd hcov
    rw [List.nodup_cons] at hnd
    rw [List.flatMap_cons]
    have hstep : ∀ c' ∈ cs, l.filter (fun x => f x == c') =
        (l.filter (fun x => !(f x == c))).filter (fun x => f x == c') := by
      intro c' hc'
      rw [List.filter_filter]
      apply List.filter_congr
      intro x _
      by_cases hfx : f x = c'
      · have hne : (c' == c) = false := by
          simp only [beq_eq_false_iff_ne, ne_eq]
          intro hcc
          exact hnd.1 (hcc ▸ hc')
        simp [hfx, hne]
      · simp [hfx]
    have hperm2 : (cs.flatMap (fun c' =>
        (l.filter (fun x => !(f x == c))).filter (fun x => f x == c'))).Perm
        (l.filter (fun x => !(f x == c))) := by
      apply ih _ hnd.2
      intro x hx
      rw [List.mem_filter] at hx
      rcases List.mem_cons.mp (hcov x hx.1) with h' | h'
      · exfalso
        have := hx.2
        rw [h'] at this
        simp at this
      · exact h'
    rw [flatMap_congr_mem cs _ _ hstep]
    exact (hperm2.append_left _).trans (List.filter_append_perm _ l)

/-- `filterMap` distributes over `flatMap`. -/
theorem filterMap_flatMap {α β γ : Type} (l : List α) (f : α → List β) (g : β → Option γ) :
    (l.flatMap f).filterMap g = l.flatMap (fun a => (f a).filterMap g) := by
  induction l with
  | nil => rfl
  | cons a rest ih => rw [List.flatMap_cons, List.filterMap_append, ih, List.flatMap_cons]

/-- C5: the emitted source table has its categories in alphabetical order
(each category once); within a category the keys are in lexicographic
order and each key belongs there by `get_category`; the assignment lines
are the concatenation of the category groups, whose keys are a
permutation of the mapping keys (each key yields exactly one assignment
line); and `get_category` places a key under the first category of the
rule table, in declaration order, whose prefix matches (start-with or
equality), falling back to `"Other"`. -/
theorem generate_cpp_mapping_spec (icon_mapping : List (String × String)) :
    ((cpp_groups icon_mapping).map Prod.fst).Sorted (· ≤ ·) ∧
    ((cpp_groups icon_mapping).map Prod.fst).Nodup ∧
    (∀ g ∈ cpp_groups icon_mapping,
      g.2.Sorted (· ≤ ·) ∧ ∀ n ∈ g.2, get_category n = g.1) ∧
    ((cpp_groups icon_mapping).flatMap Prod.snd).Perm (icon_mapping.map Prod.fst) ∧
    (generate_cpp_mapping icon_mapping).filterMap assign_key =
      (cpp_groups icon_mapping).flatMap Prod.snd ∧
    (∀ n : String, get_category n = get_category_first n) := by
  have hmapfst : (cpp_groups icon_mapping).map Prod.fst =
      sortStrings ((sortStrings (icon_mapping.map Prod.fst)).map get_category).dedup := by
    simp only [cpp_groups, List.map_map]
    exact List.map_id _
  refine ⟨?_, ?_, ?_, ?_, ?_, fun n => get_category_eq_first n⟩
  · rw [hmapfst]
    exact sortStrings_sorted _
  · rw [hmapfst]
    exact ((sortStrings_perm _).nodup_iff).mpr (List.nodup_dedup _)
  · intro g hg
    simp only [cpp_groups] at hg
    obtain ⟨cat, hcat, rfl⟩ := List.mem_map.mp hg
    refine ⟨List.Pairwise.sublist (List.filter_sublist _) (sortStrings_sorted _), fun n hn => ?_⟩
    rw [List.mem_filter] at hn
    exact eq_of_beq hn.2
  · have hflat : (cpp_groups icon_mapping).flatMap Prod.snd =
        (sortStrings ((sortStrings (icon_mapping.map Prod.fst)).map get_category).dedup).flatMap
          (fun cat => (sortStrings (icon_mapping.map Prod.fst)).filter
            (fun n => get_category n == cat)) := by
      simp only [cpp_groups, List.flatMap_map]
    rw [hflat]
    refine List.Perm.trans (flatMap_filter_perm get_category _ _ ?_ ?_) (sortStrings_perm _)
    · exact ((sortStrings_perm _).nodup_iff).mpr (List.nodup_dedup _)
    · intro x hx
      exact ((sortStrings_perm _).mem_iff).mpr
        (List.mem_dedup.mpr (List.mem_map_of_mem get_category hx))
  · have hblocks : ∀ g ∈ cpp_groups icon_mapping,
        (CppLine.comment g.1 ::
          (g.2.map (fun n => CppLine.assign n ((icon_mapping.lookup n).getD "")) ++
            [CppLine.blank])).filterMap assign_key = g.2 := by
      intro g _
      rw [List.filterMap_cons_none rfl, List.filterMap_append, List.filterMap_map]
      rw [show (assign_key ∘ fun n => CppLine.assign n ((icon_mapping.lookup n).getD "")) =
        some from rfl]
      rw [List.filterMap_some,
        show List.filterMap assign_key [CppLine.blank] = [] from rfl, List.append_nil]
    rw [generate_cpp_mapping, List.filterMap_cons_none rfl, List.filterMap_cons_none rfl,
      List.filterMap_cons_none rfl, filterMap_flatMap]
    exact flatMap_congr_mem _ _ _ hblocks
